import Mathlib

/-!
Verification of the 2D-to-3D reconstruction pipeline of the Animate repository
(`backend/models/two_d_to_three_d/`).  The Python modules `converter.py`,
`depth_estimator.py` and `mesh_generator.py` are shallowly embedded below:
pure numeric code (depth normalization, the placeholder depth map, the grid
point cloud and placeholder mesh, the hand-written OBJ export) is translated
into executable Lean functions over `ℚ`-valued pixel data, while external
collaborators (PIL image loading/resizing, torch, TripoSR, open3d, trimesh,
the file system) are abstracted into an explicit `Env` record of outcomes,
mirroring the points where the Python code calls out of the repository.
-/

namespace Animate

/-- An RGB pixel: one byte (0..255) per channel, as produced by PIL `RGB` mode. -/
abbrev RGB := ℕ × ℕ × ℕ

/-- A raster image: rows of RGB pixels (row 0 is the top of the image),
modelling a PIL `Image` in `RGB` mode (`np.array(image)` has shape `(h, w, 3)`). -/
structure Img where
  pixels : List (List RGB)

/-- Image height, as `np.array(image).shape[0]`. -/
def Img.height (img : Img) : ℕ := img.pixels.length

/-- Image width, as `np.array(image).shape[1]` (length of the first row;
numpy arrays are rectangular by construction). -/
def Img.width (img : Img) : ℕ := (img.pixels.headD []).length

/-- PIL `image.size` is `(width, height)`. -/
def Img.size (img : Img) : ℕ × ℕ := (img.width, img.height)

/-- A solid-color `w×h` image. -/
def mkImg (w h : ℕ) (c : RGB) : Img :=
  ⟨List.replicate h (List.replicate w c)⟩

/-- A depth map: a 2D array of values, modelling a `float` numpy array of
shape `(height, width)`. -/
abbrev Grid := List (List ℚ)

/-- Number of rows of a grid (`depth_map.shape[0]`). -/
def Grid.height (g : Grid) : ℕ := g.length

/-- Number of columns of a grid (`depth_map.shape[1]`). -/
def Grid.width (g : Grid) : ℕ := (g.headD []).length

/-- Minimum of a list of rationals, `0` on the empty list
(`numpy.ndarray.min` over the flattened array; the empty case never
arises in the pipeline). -/
def listMin : List ℚ → ℚ
  | [] => 0
  | [x] => x
  | x :: y :: xs => min x (listMin (y :: xs))

/-- Maximum of a list of rationals, `0` on the empty list
(`numpy.ndarray.max` over the flattened array). -/
def listMax : List ℚ → ℚ
  | [] => 0
  | [x] => x
  | x :: y :: xs => max x (listMax (y :: xs))

/-- `depth.min()` over the whole 2D array. -/
def gridMin (g : Grid) : ℚ := listMin g.flatten

/-- `depth.max()` over the whole 2D array. -/
def gridMax (g : Grid) : ℚ := listMax g.flatten

/-- `DepthEstimator._normalize_depth` (depth_estimator.py, lines 209-227):
```
depth_min = depth.min(); depth_max = depth.max()
if depth_max - depth_min > 0:
    depth = (depth - depth_min) / (depth_max - depth_min)
else:
    depth = np.zeros_like(depth)
```
-/
def normalizeDepth (g : Grid) : Grid :=
  if 0 < gridMax g - gridMin g then
    g.map (fun row => row.map (fun x => (x - gridMin g) / (gridMax g - gridMin g)))
  else
    g.map (fun row => row.map (fun _ => 0))

/-- PIL `convert('L')` luminance of one RGB pixel: `L = (299R + 587G + 114B) // 1000`
(ITU-R 601-2, truncated to an integer byte, as PIL does). -/
def grayByte (p : RGB) : ℕ := (299 * p.1 + 587 * p.2.1 + 114 * p.2.2) / 1000

/-- `np.linspace(a, b, n)[i]`: `n` evenly spaced samples from `a` to `b`
inclusive; `[a]` when `n = 1`. -/
def linspaceQ (a b : ℚ) (n i : ℕ) : ℚ :=
  if n ≤ 1 then a else a + (b - a) * i / (n - 1 : ℕ)

/-- The pre-normalization depth of `DepthEstimator._placeholder_depth`
(depth_estimator.py, lines 188-202):
```
gray_array = np.array(image.convert('L'), dtype=np.float32) / 255.0
depth_map = 1.0 - gray_array
y_gradient = np.tile(np.linspace(0.3, 1.0, height)[:, np.newaxis], (1, width))
depth_map = depth_map * 0.7 + y_gradient * 0.3
```
Row `i` of the gradient is `linspace(0.3, 1.0, height)[i]`. -/
def blendDepth (img : Img) : Grid :=
  let h := img.height
  (List.range h).map (fun i =>
    (img.pixels.getD i []).map (fun px =>
      (1 - (grayByte px : ℚ) / 255) * (7/10) + linspaceQ (3/10) 1 h i * (3/10)))

/-- `DepthEstimator._placeholder_depth` (depth_estimator.py, lines 174-207):
luminance-based depth blended with a vertical gradient, then normalized. -/
def placeholderDepth (img : Img) : Grid :=
  normalizeDepth (blendDepth img)

/-- A 3D point (or an RGB color scaled to `[0,1]`), one row of an `(N,3)` array. -/
abbrev P3 := ℚ × ℚ × ℚ

/-- A triangle: one row of the `(M,3)` integer face-index array. -/
abbrev Tri := ℕ × ℕ × ℕ

/-- The point array of `MeshGenerator._depth_to_pointcloud`
(mesh_generator.py, lines 128-139):
```
height, width = depth_map.shape
x = np.linspace(-1, 1, width); y = np.linspace(-1, 1, height)
xx, yy = np.meshgrid(x, y)
zz = depth_map * depth_scale
points = np.stack([xx.flatten(), yy.flatten(), zz.flatten()], axis=1)
```
Row-major flattening: the point for pixel `(i, j)` sits at index `i*width + j`. -/
def pcPoints (depth : Grid) (depth_scale : ℚ) : List P3 :=
  let h := depth.height
  let w := depth.width
  (List.range h).flatMap (fun i =>
    (List.range w).map (fun j =>
      (linspaceQ (-1) 1 w j, linspaceQ (-1) 1 h i,
        ((depth.getD i []).getD j 0) * depth_scale)))

/-- The color array of `MeshGenerator._depth_to_pointcloud`
(mesh_generator.py, lines 141-143):
```
img_array = np.array(image.resize((width, height))) / 255.0
colors = img_array.reshape(-1, 3)
```
The resize is PIL's (external); the caller supplies the resized image. -/
def pcColors (resized : Img) : List P3 :=
  resized.pixels.flatten.map (fun p =>
    ((p.1 : ℚ) / 255, (p.2.1 : ℚ) / 255, (p.2.2 : ℚ) / 255))

/-- The grid-triangulation face list shared by `_create_mesh_trimesh` and
`_create_placeholder_mesh` (mesh_generator.py, lines 254-259):
```
for i in range(height - 1):
    for j in range(width - 1):
        idx = i * width + j
        faces.append([idx, idx + 1, idx + width])
        faces.append([idx + 1, idx + width + 1, idx + width])
```
-/
def gridFaces (height width : ℕ) : List Tri :=
  (List.range (height - 1)).flatMap (fun i =>
    (List.range (width - 1)).flatMap (fun j =>
      let idx := i * width + j
      [(idx, idx + 1, idx + width), (idx + 1, idx + width + 1, idx + width)]))

/-- A mesh dictionary as returned by the `_create_mesh_*` functions: either a
library-object mesh (open3d / trimesh, whose geometry lives in the external
library and is known only through its reported counts) or the raw-array
placeholder mesh. -/
inductive MeshData
  /-- `{'mesh_object': ..., 'vertex_count': vc, 'face_count': fc, 'library': lib}` -/
  | lib (library : String) (vc fc : ℕ)
  /-- `{'vertices': ..., 'faces': ..., 'colors': ..., 'vertex_count': ...,
  'face_count': ..., 'library': 'placeholder'}` -/
  | ph (vertices : List P3) (faces : List Tri) (colors : List P3)

/-- `mesh['vertex_count']` (`len(points)` for the placeholder). -/
def MeshData.vertexCount : MeshData → ℕ
  | .lib _ vc _ => vc
  | .ph v _ _ => v.length

/-- `mesh['face_count']` (`len(faces)` for the placeholder). -/
def MeshData.faceCount : MeshData → ℕ
  | .lib _ _ fc => fc
  | .ph _ f _ => f.length

/-- `mesh['library']`. -/
def MeshData.library : MeshData → String
  | .lib s _ _ => s
  | .ph _ _ _ => "placeholder"

/-- The face list of a mesh (`[]` for a library mesh, whose faces live in the
external library object). -/
def MeshData.faces : MeshData → List Tri
  | .lib _ _ _ => []
  | .ph _ f _ => f

/-- `MeshGenerator._create_placeholder_mesh` (mesh_generator.py, lines 242-268):
```
height = int(np.sqrt(len(points))); width = len(points) // height
faces = <grid triangulation>
return {'vertices': points, 'faces': np.array(faces), 'colors': colors,
        'vertex_count': len(points), 'face_count': len(faces),
        'library': 'placeholder'}
```
-/
def createPlaceholderMesh (points colors : List P3) : MeshData :=
  let height := Nat.sqrt points.length
  let width := points.length / height
  .ph points (gridFaces height width) colors

/-- `quality_settings` of `MeshGenerator.generate` (mesh_generator.py,
lines 80-85): `(depth_scale, simplify)` per quality, defaulting to `'medium'`
for unknown keys (`quality_settings.get(quality, quality_settings['medium'])`). -/
def meshSettings (quality : String) : ℚ × ℚ :=
  if quality = "low" then (3/10, 3/10)
  else if quality = "medium" then (1/2, 1/2)
  else if quality = "high" then (1, 4/5)
  else (1/2, 1/2)

/-- One step of Python's `str.replace(pat, rep)` over a character list, with
explicit fuel (the fuel is set to the string length; the pipeline only ever
replaces the nonempty pattern `'.' + format`, for which the fuel suffices). -/
def replaceFuel (pat rep : List Char) : ℕ → List Char → List Char
  | 0, l => l
  | _ + 1, [] => []
  | fuel + 1, c :: rest =>
    if pat.isPrefixOf (c :: rest) ∧ pat ≠ [] then
      rep ++ replaceFuel pat rep fuel ((c :: rest).drop pat.length)
    else
      c :: replaceFuel pat rep fuel rest

/-- Python `s.replace(pat, rep)` (replaces every occurrence, left to right). -/
def pyReplace (s pat rep : String) : String :=
  ⟨replaceFuel pat.data rep.data s.data.length s.data⟩

/-- Left-pad a digit string with zeros to 6 characters. -/
def pad6 (s : String) : String :=
  ⟨List.replicate (6 - s.length) '0'⟩ ++ s

/-- Python's `f'{x:.6f}'`: fixed-point rendering with 6 decimals (rounding
to nearest; Python rounds ties to even, a case the pipeline's claims never
depend on). -/
def fmt6 (q : ℚ) : String :=
  let sign := if q < 0 then "-" else ""
  let scaled := (⌊|q| * 1000000 + 1/2⌋).toNat
  sign ++ toString (scaled / 1000000) ++ "." ++ pad6 (toString (scaled % 1000000))

/-- One `v x y z` vertex line of `MeshGenerator._export_placeholder`
(mesh_generator.py, line 355): `f'v {v[0]:.6f} {v[1]:.6f} {v[2]:.6f}\n'`. -/
def vxLine (v : P3) : String :=
  "v " ++ (fmt6 v.1 ++ " " ++ fmt6 v.2.1 ++ " " ++ fmt6 v.2.2)

/-- One `f i+1 j+1 k+1` face line of `MeshGenerator._export_placeholder`
(mesh_generator.py, line 359), with 1-based OBJ indices. -/
def faceLine (t : Tri) : String :=
  "f " ++ (toString (t.1 + 1) ++ " " ++ toString (t.2.1 + 1) ++ " " ++ toString (t.2.2 + 1))

/-- The lines of the OBJ file written by `MeshGenerator._export_placeholder`
(mesh_generator.py, lines 348-359): a comment header with the counts, a blank
line, one vertex line per vertex, one face line per face. -/
def objLines (m : MeshData) : List String :=
  ["# AniMate 3D Model",
   "# Vertices: " ++ toString m.vertexCount,
   "# Faces: " ++ toString m.faceCount,
   ""]
  ++ (match m with | .ph v _ _ => v.map vxLine | .lib _ _ _ => [])
  ++ (m.faces.map faceLine)

/-- Re-parse step of the OBJ round trip: a line is a vertex line iff its first
two characters are `v` followed by a space. -/
def isVxLine (l : String) : Bool := decide (l.data.take 2 = ['v', ' '])

/-- Re-parse step of the OBJ round trip: a line is a face line iff its first
two characters are `f` followed by a space. -/
def isFaceLine (l : String) : Bool := decide (l.data.take 2 = ['f', ' '])

/-- `s.count(pat) > 0`-style substring check over character lists (used to
state that an error message mentions a phrase). -/
def hasSub (pat : List Char) : List Char → Bool
  | [] => pat.isPrefixOf []
  | c :: rest => pat.isPrefixOf (c :: rest) || hasSub pat rest

/-- Outcomes of every call the pipeline makes out of the repository: PIL,
torch/MiDaS, TripoSR, open3d, trimesh and the file system.  Each field mirrors
one call site; an `Except` value is the call's return value or the message of
the exception it raised. -/
structure Env where
  /-- `os.path.exists(input_path)` (converter.py, line 125). -/
  fileExists : String → Bool
  /-- `Image.open(path)` + `convert('RGB')` (converter.py, lines 260-264). -/
  openImage : String → Except String Img
  /-- `image.thumbnail((bound, bound), LANCZOS)` (converter.py, line 267):
  PIL downscale preserving aspect ratio, identity when already within bound. -/
  thumbnailF : Img → ℕ → Img
  /-- `image.resize((width, height))` (mesh_generator.py, line 142). -/
  resizeF : Img → ℕ → ℕ → Img
  /-- Whether `TripoSRConverter.initialize` succeeds (converter.py, line 66:
  TSR weights download/load, rembg session). -/
  triposrInitOk : Bool
  /-- TripoSR preprocessing + forward pass + marching-cubes extraction
  (triposr_converter.py, lines 160-180), yielding `(len(mesh.vertices),
  len(mesh.faces))`, or the raised exception's message. -/
  triposrRun : Img → ℕ → Except String (ℕ × ℕ)
  /-- `mesh.export(final_output_path)` inside TripoSR (triposr_converter.py,
  line 191). -/
  triposrWrite : Except String Unit
  /-- `TORCH_AVAILABLE` (depth_estimator.py, lines 15-19). -/
  torchAvailable : Bool
  /-- Whether the MiDaS hub model loaded, i.e. `self.model is not None`
  (depth_estimator.py, lines 88-101). -/
  midasLoaded : Bool
  /-- MiDaS inference + bicubic resize back to image resolution
  (depth_estimator.py, lines 149-164): the raw (pre-normalization) depth
  prediction, or the raised exception's message. -/
  neuralDepth : Img → Except String Grid
  /-- `OPEN3D_AVAILABLE` (mesh_generator.py, lines 24-28). -/
  open3dAvailable : Bool
  /-- `TRIMESH_AVAILABLE` (mesh_generator.py, lines 18-22). -/
  trimeshAvailable : Bool
  /-- The open3d rung (mesh_generator.py, lines 154-187): Poisson
  reconstruction, density filtering, decimation, smoothing — reported
  `(len(mesh.vertices), len(mesh.triangles))`, or the exception message. -/
  open3dRun : List P3 → Except String (ℕ × ℕ)
  /-- The trimesh rung (mesh_generator.py, lines 200-236): grid mesh +
  quadric decimation — reported `(len(mesh.vertices), len(mesh.faces))`,
  or the exception message. -/
  trimeshRun : List P3 → Except String (ℕ × ℕ)
  /-- Whether the export write (`open(obj_path, 'w')` / library export)
  succeeds (mesh_generator.py, lines 290-295, 348). -/
  exportOk : Bool

/-- `DepthEstimator.estimate` (depth_estimator.py, lines 127-172): neural
depth normalized to `[0,1]` when torch and a loaded model are available and
inference succeeds; the deterministic placeholder otherwise.  Every code path
returns an array (the placeholder covers initialization and inference
failures), so the embedding is total. -/
def estimate (env : Env) (img : Img) : Grid :=
  if env.torchAvailable then
    if env.midasLoaded then
      match env.neuralDepth img with
      | .ok raw => normalizeDepth raw
      | .error _ => placeholderDepth img
    else placeholderDepth img
  else placeholderDepth img

/-- `MeshGenerator.generate` (mesh_generator.py, lines 59-109): point cloud,
then one mesh-construction rung chosen by library availability; a failing
library rung falls back to `_create_placeholder_mesh` (lines 189-191 and
238-240), which always returns a mesh dictionary. -/
def generate (env : Env) (img : Img) (depth : Grid) (quality : String) :
    Option MeshData :=
  let settings := meshSettings quality
  let points := pcPoints depth settings.1
  let colors := pcColors (env.resizeF img depth.width depth.height)
  let mesh :=
    if env.open3dAvailable then
      match env.open3dRun points with
      | .ok (vc, fc) => MeshData.lib "open3d" vc fc
      | .error _ => createPlaceholderMesh points colors
    else if env.trimeshAvailable then
      match env.trimeshRun points with
      | .ok (vc, fc) => MeshData.lib "trimesh" vc fc
      | .error _ => createPlaceholderMesh points colors
    else createPlaceholderMesh points colors
  some mesh

/-- `MeshGenerator.export` (mesh_generator.py, lines 270-299): dispatch on
`mesh['library']`; the placeholder branch writes a hand-written OBJ at
`output_path.replace('.{format}', '.obj')`.  Returns the success flag and the
list of files written. -/
def meshExport (env : Env) (mesh : MeshData) (output_path fmt : String) :
    Bool × List String :=
  match mesh with
  | .lib lib _ _ =>
    if lib = "open3d" ∧ env.open3dAvailable then
      if fmt = "glb" ∧ ¬ env.trimeshAvailable then
        (env.exportOk, if env.exportOk then [pyReplace output_path ".glb" ".ply"] else [])
      else (env.exportOk, if env.exportOk then [output_path] else [])
    else if lib = "trimesh" ∧ env.trimeshAvailable then
      (env.exportOk, if env.exportOk then [output_path] else [])
    else
      -- A library mesh reaching `_export_placeholder` raises `KeyError`
      -- on `mesh['vertices']` (caught at line 364, returning False); the
      -- pipeline never produces this combination.
      (false, [])
  | .ph _ _ _ =>
    (env.exportOk,
     if env.exportOk then [pyReplace output_path ("." ++ fmt) ".obj"] else [])

/-- The `metadata` sub-dictionary of a conversion result.  The MiDaS path
fills `input_resolution`, `quality`, `vertex_count`, `face_count`
(converter.py, lines 224-229); the TripoSR path fills `vertex_count`,
`face_count`, `mc_resolution`, `has_texture` (triposr_converter.py,
lines 199-204).  Absent keys are `none`. -/
structure MetaD where
  input_resolution : Option (ℕ × ℕ) := none
  quality : Option String := none
  vertex_count : Option ℕ := none
  face_count : Option ℕ := none
  mc_resolution : Option ℕ := none
  has_texture : Option Bool := none
  deriving DecidableEq

/-- The result dictionary of `TwoDToThreeDConverter.convert` (and of
`TripoSRConverter.convert`).  Absent keys are `none`.  `written` is the list
of files the call created on disk (an effect log; not a dictionary key). -/
structure ConvResult where
  success : Bool
  error : Option String := none
  output_path : Option String := none
  format : Option String := none
  method : Option String := none
  metadata : Option MetaD := none
  written : List String := []
  deriving DecidableEq

/-- `resolution_map` for marching cubes (converter.py, lines 148-153):
`{'low': 128, 'medium': 256, 'high': 512}.get(quality, 256)`. -/
def mcResolution (quality : String) : ℕ :=
  if quality = "low" then 128
  else if quality = "medium" then 256
  else if quality = "high" then 512
  else 256

/-- `resolution_map` for image loading (converter.py, lines 252-257):
`{'low': 256, 'medium': 512, 'high': 1024}.get(quality, 512)`. -/
def resizeBound (quality : String) : ℕ :=
  if quality = "low" then 256
  else if quality = "medium" then 512
  else if quality = "high" then 1024
  else 512

/-- `TwoDToThreeDConverter._load_image` (converter.py, lines 239-273):
open, convert to RGB, and `thumbnail` to the quality's resolution bound;
`None` when `Image.open` (or any PIL step) raises. -/
def loadImage (env : Env) (path quality : String) : Option Img :=
  match env.openImage path with
  | .error _ => none
  | .ok img => some (env.thumbnailF img (resizeBound quality))

/-- `TripoSRConverter.convert` (triposr_converter.py, lines 123-212):
lazy init, preprocessing + inference + marching cubes, export; every
exception is caught by the enclosing `try` and becomes
`{'success': False, 'error': str(e)}`. -/
def triposrConvert (env : Env) (img : Img) (output_path output_format : String)
    (mc_resolution : ℕ) : ConvResult :=
  if ¬ env.triposrInitOk then
    { success := false, error := some "Failed to initialize TripoSR" }
  else
    match env.triposrRun img mc_resolution with
    | .error msg => { success := false, error := some msg }
    | .ok (vc, fc) =>
      match env.triposrWrite with
      | .error msg => { success := false, error := some msg }
      | .ok _ =>
        { success := true,
          output_path := some (output_path ++ "." ++ output_format),
          format := some output_format,
          metadata := some { vertex_count := some vc, face_count := some fc,
                             mc_resolution := some mc_resolution,
                             has_texture := some false },
          written := [output_path ++ "." ++ output_format] }

/-- `TwoDToThreeDConverter.convert` (converter.py, lines 94-237).
`initialize` (lines 53-92) cannot raise in the embedding — `TripoSRConverter.
initialize` catches its own exceptions and returns a bool, and the MiDaS
fallback constructors only assign fields — so lazy initialization always
returns True, recording whether TripoSR is active (`use_triposr`).
The whole body sits in a `try` whose handler returns
`{'success': False, 'error': str(e)}`, so the embedding is a total function
into `ConvResult`. -/
def convert (env : Env) (input_path output_path output_format quality : String) :
    ConvResult :=
  let use_triposr := env.triposrInitOk
  if ¬ env.fileExists input_path then
    { success := false, error := some ("Input file not found: " ++ input_path) }
  else
    match loadImage env input_path quality with
    | none => { success := false, error := some "Failed to load image" }
    | some img =>
      if use_triposr then
        let r := triposrConvert env img output_path output_format (mcResolution quality)
        if r.success then { r with method := some "TripoSR" } else r
      else
        let depth := estimate env img
        match generate env img depth quality with
        | none => { success := false, error := some "Mesh generation failed" }
        | some mesh =>
          let out := output_path ++ "." ++ output_format
          let ex := meshExport env mesh out output_format
          if ¬ ex.1 then
            { success := false, error := some "Failed to export mesh",
              written := ex.2 }
          else
            { success := true,
              output_path := some out,
              format := some output_format,
              method := some "MiDaS",
              metadata := some { input_resolution := some img.size,
                                 quality := some quality,
                                 vertex_count := some mesh.vertexCount,
                                 face_count := some mesh.faceCount },
              written := ex.2 }

/-- Error messages injected by the outside world are human-readable
(nonempty): the message of an exception raised inside TripoSR inference or
TripoSR export is the only external text `convert` ever returns verbatim
(as `str(e)` of the caught exception). -/
def EnvMsgsOk (env : Env) : Prop :=
  (∀ img r m, env.triposrRun img r = .error m → m ≠ "") ∧
  (∀ m, env.triposrWrite = .error m → m ≠ "")

/-- PIL's `image.resize((w, h))` really returns a `w×h` image (rows of
length `w`, `h` of them). -/
def EnvResizeOk (env : Env) : Prop :=
  ∀ img w h, (env.resizeF img w h).pixels.length = h ∧
    ∀ row ∈ (env.resizeF img w h).pixels, row.length = w

/-- A bare environment for concrete runs: the input file exists and loads as
`img`, no neural backend (TripoSR init fails, torch absent) and no 3D
geometry library is available, and file writes succeed.  `thumbnail` is the
identity (its PIL contract for an image already within the bound) and
`resize` returns a solid image of the requested size. -/
def bareEnv (img : Img) : Env where
  fileExists := fun _ => true
  openImage := fun _ => .ok img
  thumbnailF := fun i _ => i
  resizeF := fun _ w h => mkImg w h (0, 0, 0)
  triposrInitOk := false
  triposrRun := fun _ _ => .error "TripoSR unavailable"
  triposrWrite := .ok ()
  torchAvailable := false
  midasLoaded := false
  neuralDepth := fun _ => .error "torch unavailable"
  open3dAvailable := false
  trimeshAvailable := false
  open3dRun := fun _ => .error "open3d unavailable"
  trimeshRun := fun _ => .error "trimesh unavailable"
  exportOk := true

/-- Like `bareEnv`, but open3d and trimesh are both importable and the open3d
rung (Poisson reconstruction) raises, while the trimesh rung would succeed —
the environment of the graceful-degradation scenario. -/
def ladderEnv (img : Img) : Env :=
  { bareEnv img with
    open3dAvailable := true
    trimeshAvailable := true
    open3dRun := fun _ => .error "Poisson reconstruction failed"
    trimeshRun := fun p => .ok (p.length, 7) }

/-- A 256×256 solid-color image (the C2 scenario input). -/
def solid256 : Img := mkImg 256 256 (128, 64, 32)

/-- A small concrete image for witness runs. -/
def img32 : Img := mkImg 3 2 (0, 0, 0)

/-- A small concrete 2×3 depth map for witness runs. -/
def g23 : Grid := [[0, 0, 0], [0, 0, 1]]

/-- `bareEnv` with a file system on which the input path does not exist. -/
def noFileEnv : Env := { bareEnv img32 with fileExists := fun _ => false }

theorem listMin_le {l : List ℚ} {x : ℚ} (hx : x ∈ l) : listMin l ≤ x := by
  induction l with
  | nil => cases hx
  | cons a t ih =>
    cases t with
    | nil => simp at hx; simp [listMin, hx]
    | cons b u =>
      rcases List.mem_cons.mp hx with h | h
      · simp [listMin, h, min_le_left]
      · exact le_trans (min_le_right _ _) (ih h)

theorem le_listMax {l : List ℚ} {x : ℚ} (hx : x ∈ l) : x ≤ listMax l := by
  induction l with
  | nil => cases hx
  | cons a t ih =>
    cases t with
    | nil => simp at hx; simp [listMax, hx]
    | cons b u =>
      rcases List.mem_cons.mp hx with h | h
      · simp [listMax, h, le_max_left]
      · exact le_trans (ih h) (le_max_right _ _)

theorem gridMin_le {g : Grid} {row : List ℚ} {x : ℚ}
    (hr : row ∈ g) (hx : x ∈ row) : gridMin g ≤ x :=
  listMin_le (List.mem_flatten.mpr ⟨row, hr, hx⟩)

theorem le_gridMax {g : Grid} {row : List ℚ} {x : ℚ}
    (hr : row ∈ g) (hx : x ∈ row) : x ≤ gridMax g :=
  le_listMax (List.mem_flatten.mpr ⟨row, hr, hx⟩)

theorem normalizeDepth_length (g : Grid) :
    (normalizeDepth g).length = g.length := by
  unfold normalizeDepth
  split <;> simp

theorem normalizeDepth_row_length {g : Grid} {i : ℕ} :
    ((normalizeDepth g).getD i []).length = (g.getD i []).length := by
  unfold normalizeDepth
  split <;>
    · rcases h : g[i]? with _ | row
      · simp [List.getD_eq_getElem?_getD, h]
      · simp [List.getD_eq_getElem?_getD, h]

/-- C3.  `DepthEstimator._normalize_depth` implements the shared
normalization rule: elementwise `(d - min) / (max - min)` when `max > min`,
an all-zero array of the same shape when `max = min` (so no division by zero
occurs), and consequently every output value lies in `[0, 1]`. -/
theorem normalize_depth_rule (g : Grid) :
    (gridMin g < gridMax g →
      normalizeDepth g =
        g.map (fun row => row.map
          (fun x => (x - gridMin g) / (gridMax g - gridMin g)))) ∧
    (gridMin g = gridMax g →
      (∀ row ∈ normalizeDepth g, ∀ x ∈ row, x = 0) ∧
      (normalizeDepth g).length = g.length ∧
      ∀ i, ((normalizeDepth g).getD i []).length = (g.getD i []).length) ∧
    (∀ row ∈ normalizeDepth g, ∀ x ∈ row, 0 ≤ x ∧ x ≤ 1) := by
  refine ⟨?_, ?_, ?_⟩
  · intro hlt
    unfold normalizeDepth
    rw [if_pos (by linarith)]
  · intro heq
    refine ⟨?_, normalizeDepth_length g, fun i => normalizeDepth_row_length⟩
    intro row hrow x hx
    unfold normalizeDepth at hrow
    rw [if_neg (by rw [heq]; simp)] at hrow
    rcases List.mem_map.mp hrow with ⟨r0, _, rfl⟩
    rcases List.mem_map.mp hx with ⟨x0, _, rfl⟩
    rfl
  · intro row hrow x hx
    unfold normalizeDepth at hrow
    by_cases hc : 0 < gridMax g - gridMin g
    · rw [if_pos hc] at hrow
      rcases List.mem_map.mp hrow with ⟨r0, hr0, rfl⟩
      rcases List.mem_map.mp hx with ⟨x0, hx0, rfl⟩
      constructor
      · exact div_nonneg (by have := gridMin_le hr0 hx0; linarith) (le_of_lt hc)
      · rw [div_le_one hc]
        have := le_gridMax hr0 hx0
        linarith
    · rw [if_neg hc] at hrow
      rcases List.mem_map.mp hrow with ⟨r0, _, rfl⟩
      rcases List.mem_map.mp hx with ⟨x0, _, rfl⟩
      norm_num

theorem sum_map_const {α : Type} (l : List α) (k : ℕ) :
    (l.map (fun _ => k)).sum = l.length * k := by
  induction l with
  | nil => simp
  | cons a t ih => simp [ih, Nat.succ_mul, Nat.add_comm]

theorem flatten_length_const {α : Type} {ll : List (List α)} {w : ℕ}
    (h : ∀ row ∈ ll, row.length = w) :
    ll.flatten.length = ll.length * w := by
  induction ll with
  | nil => simp
  | cons r t ih =>
    simp only [List.flatten_cons, List.length_append, List.length_cons]
    rw [h r (by simp), ih (fun row hr => h row (by simp [hr]))]
    ring

theorem pcPoints_length (g : Grid) (s : ℚ) :
    (pcPoints g s).length = g.height * g.width := by
  unfold pcPoints
  rw [List.length_flatMap]
  have : ∀ i : ℕ, (List.length ∘ fun i =>
      (List.range g.width).map (fun j =>
        (linspaceQ (-1) 1 g.width j, linspaceQ (-1) 1 g.height i,
          ((g.getD i []).getD j 0) * s))) i = g.width := by
    intro i; simp
  calc ((List.range g.height).map _).sum
      = ((List.range g.height).map (fun _ => g.width)).sum := by
        apply congrArg; exact List.map_congr_left (fun i _ => this i)
    _ = g.height * g.width := by rw [sum_map_const]; simp

theorem gridFaces_length (H W : ℕ) :
    (gridFaces H W).length = (H - 1) * ((W - 1) * 2) := by
  unfold gridFaces
  rw [List.length_flatMap]
  have inner : ∀ i : ℕ,
      ((List.range (W - 1)).flatMap (fun j =>
        [(i * W + j, i * W + j + 1, i * W + j + W),
         (i * W + j + 1, i * W + j + W + 1, i * W + j + W)])).length
        = (W - 1) * 2 := by
    intro i
    rw [List.length_flatMap]
    calc ((List.range (W - 1)).map _).sum
        = ((List.range (W - 1)).map (fun _ => 2)).sum := by
          apply congrArg; exact List.map_congr_left (fun j _ => rfl)
      _ = (W - 1) * 2 := by rw [sum_map_const]; simp
  calc ((List.range (H - 1)).map _).sum
      = ((List.range (H - 1)).map (fun _ => (W - 1) * 2)).sum := by
        apply congrArg; exact List.map_congr_left (fun i _ => inner i)
    _ = (H - 1) * ((W - 1) * 2) := by rw [sum_map_const]; simp

theorem mkImg_height (w h : ℕ) (c : RGB) : (mkImg w h c).height = h := by
  simp [mkImg, Img.height]

theorem mkImg_width (w h : ℕ) (c : RGB) (hh : 0 < h) :
    (mkImg w h c).width = w := by
  unfold mkImg Img.width
  rcases h with _ | h0
  · omega
  · simp [List.replicate_succ]

theorem blendDepth_height (img : Img) : (blendDepth img).height = img.height := by
  simp [blendDepth, Grid.height]

theorem blendDepth_row_length (img : Img) (i : ℕ) (hi : i < img.height) :
    ((blendDepth img).getD i []).length = (img.pixels.getD i []).length := by
  unfold blendDepth
  have : ((List.range img.height).map (fun i =>
      (img.pixels.getD i []).map (fun px =>
        (1 - (grayByte px : ℚ) / 255) * (7/10) +
          linspaceQ (3/10) 1 img.height i * (3/10))))[i]? =
      some ((img.pixels.getD i []).map (fun px =>
        (1 - (grayByte px : ℚ) / 255) * (7/10) +
          linspaceQ (3/10) 1 img.height i * (3/10))) := by
    rw [List.getElem?_map, List.getElem?_range hi]
    rfl
  rw [List.getD_eq_getElem?_getD, this]
  simp

theorem placeholderDepth_height (img : Img) :
    (placeholderDepth img).height = img.height := by
  unfold placeholderDepth
  rw [show (normalizeDepth (blendDepth img)).height =
        (normalizeDepth (blendDepth img)).length from rfl,
      normalizeDepth_length]
  exact blendDepth_height img

theorem placeholderDepth_row_length (img : Img) (i : ℕ) (hi : i < img.height) :
    ((placeholderDepth img).getD i []).length = (img.pixels.getD i []).length := by
  unfold placeholderDepth
  rw [normalizeDepth_row_length]
  exact blendDepth_row_length img i hi

theorem grid_width_eq_row0 (g : Grid) : g.width = (g.getD 0 []).length := by
  cases g <;> simp [Grid.width]

theorem placeholderDepth_width (img : Img) (h0 : 0 < img.height) :
    (placeholderDepth img).width = img.width := by
  rw [grid_width_eq_row0, placeholderDepth_row_length img 0 h0]
  unfold Img.width
  cases himg : img.pixels <;> simp

theorem linspaceQ_bounds {a b : ℚ} (hab : a ≤ b) {n i : ℕ} (hi : i < n) :
    a ≤ linspaceQ a b n i ∧ linspaceQ a b n i ≤ b := by
  unfold linspaceQ
  by_cases hn : n ≤ 1
  · rw [if_pos hn]; exact ⟨le_refl a, hab⟩
  · rw [if_neg hn]
    push_neg at hn
    have h1 : 1 ≤ n - 1 := by omega
    have hpos : (0 : ℚ) < ((n - 1 : ℕ) : ℚ) := by
      exact_mod_cast Nat.lt_of_lt_of_le Nat.zero_lt_one h1
    have hba : (0 : ℚ) ≤ b - a := by linarith
    have hi' : (i : ℚ) ≤ ((n - 1 : ℕ) : ℚ) := by
      exact_mod_cast Nat.le_sub_one_of_lt hi
    constructor
    · have : 0 ≤ (b - a) * i / ((n - 1 : ℕ) : ℚ) :=
        div_nonneg (mul_nonneg hba (by positivity)) (le_of_lt hpos)
      linarith
    · have key : (b - a) * i / ((n - 1 : ℕ) : ℚ) ≤ b - a := by
        rw [div_le_iff₀ hpos]
        nlinarith [mul_le_mul_of_nonneg_left hi' hba]
      linarith

theorem mem_pcPoints {g : Grid} {s : ℚ} {p : P3} (hp : p ∈ pcPoints g s) :
    ∃ i j, i < g.height ∧ j < g.width ∧
      p = (linspaceQ (-1) 1 g.width j, linspaceQ (-1) 1 g.height i,
           ((g.getD i []).getD j 0) * s) := by
  unfold pcPoints at hp
  rcases List.mem_flatMap.mp hp with ⟨i, hi, hp2⟩
  rcases List.mem_map.mp hp2 with ⟨j, hj, rfl⟩
  exact ⟨i, j, List.mem_range.mp hi, List.mem_range.mp hj, rfl⟩

/-- C6.  `MeshGenerator._depth_to_pointcloud` returns parallel point and
color arrays of length exactly `width·height` of the depth map; every point
has its XY coordinates in `[-1,1]×[-1,1]` and its Z coordinate equal to the
pixel's depth times `depth_scale`.  (The color array comes from the source
image resized to the depth map's size; `EnvResizeOk` is PIL's contract that
`resize((w,h))` yields a `w×h` image.) -/
theorem depth_to_pointcloud_spec (env : Env) (img : Img) (g : Grid) (s : ℚ)
    (hwf : EnvResizeOk env) :
    (pcPoints g s).length = g.width * g.height ∧
    (pcColors (env.resizeF img g.width g.height)).length = g.width * g.height ∧
    ∀ p ∈ pcPoints g s,
      (-1 ≤ p.1 ∧ p.1 ≤ 1) ∧ (-1 ≤ p.2.1 ∧ p.2.1 ≤ 1) ∧
      ∃ i j, i < g.height ∧ j < g.width ∧
        p = (linspaceQ (-1) 1 g.width j, linspaceQ (-1) 1 g.height i,
             ((g.getD i []).getD j 0) * s) := by
  refine ⟨by rw [pcPoints_length]; ring, ?_, ?_⟩
  · unfold pcColors
    rw [List.length_map,
        flatten_length_const (hwf img g.width g.height).2,
        (hwf img g.width g.height).1]
    ring
  · intro p hp
    rcases mem_pcPoints hp with ⟨i, j, hi, hj, rfl⟩
    refine ⟨?_, ?_, i, j, hi, hj, rfl⟩
    · exact linspaceQ_bounds (by norm_num) hj
    · exact linspaceQ_bounds (by norm_num) hi

theorem bareEnv_resizeOk (im : Img) : EnvResizeOk (bareEnv im) := by
  intro img w h
  constructor
  · simp [bareEnv, mkImg]
  · intro row hrow
    simp only [bareEnv, mkImg] at hrow
    rw [List.eq_of_mem_replicate hrow]
    simp

/-- C6 witness: a concrete run — a 2×3 depth map gives 6 points and 6
colors, with the stated bounds. -/
theorem depth_to_pointcloud_spec_witness :
    EnvResizeOk (bareEnv img32) ∧
    ((pcPoints g23 (1/2)).length = g23.width * g23.height ∧
     (pcColors ((bareEnv img32).resizeF img32 g23.width g23.height)).length =
       g23.width * g23.height ∧
     ∀ p ∈ pcPoints g23 (1/2),
       (-1 ≤ p.1 ∧ p.1 ≤ 1) ∧ (-1 ≤ p.2.1 ∧ p.2.1 ≤ 1) ∧
       ∃ i j, i < g23.height ∧ j < g23.width ∧
         p = (linspaceQ (-1) 1 g23.width j, linspaceQ (-1) 1 g23.height i,
              ((g23.getD i []).getD j 0) * (1/2))) :=
  ⟨bareEnv_resizeOk img32,
   depth_to_pointcloud_spec (bareEnv img32) img32 g23 (1/2)
     (bareEnv_resizeOk img32)⟩

/-- C4 counterexample.  The claim (and spec §4.2) says the blended linear
gradient has its far edge at the top.  In the code the gradient is
`np.linspace(0.3, 1.0, height)`: row 0 (the top) gets the smallest
contribution.  For a constant-black 1×2 image the resulting depth map is
`[[0], [1]]` — depth (distance) is minimal at the top row and maximal at the
bottom row, so the far edge is at the BOTTOM, refuting the claim as stated. -/
theorem placeholder_gradient_cx :
    ((placeholderDepth (mkImg 1 2 (0, 0, 0))).getD 0 []).getD 0 99 = 0 ∧
    ((placeholderDepth (mkImg 1 2 (0, 0, 0))).getD 1 []).getD 0 99 = 1 ∧
    ¬ (((placeholderDepth (mkImg 1 2 (0, 0, 0))).getD 1 []).getD 0 99 ≤
       ((placeholderDepth (mkImg 1 2 (0, 0, 0))).getD 0 []).getD 0 99) := by
  have h2 : List.range 2 = [0, 1] := by decide
  refine ⟨?_, ?_, ?_⟩ <;>
    · simp [placeholderDepth, blendDepth, normalizeDepth, gridMin, gridMax,
            listMin, listMax, grayByte, linspaceQ, mkImg, Img.height, h2]
      norm_num

theorem linspaceQ_mono {a b : ℚ} (hab : a ≤ b) (n : ℕ) {i j : ℕ} (hij : i ≤ j) :
    linspaceQ a b n i ≤ linspaceQ a b n j := by
  unfold linspaceQ
  split
  · exact le_refl a
  · next hn =>
    push_neg at hn
    have hpos : (0 : ℚ) < ((n - 1 : ℕ) : ℚ) := by
      exact_mod_cast Nat.sub_pos_of_lt hn
    have hij' : (i : ℚ) ≤ (j : ℚ) := by exact_mod_cast hij
    have hmul : (b - a) * i ≤ (b - a) * j :=
      mul_le_mul_of_nonneg_left hij' (by linarith)
    have : (b - a) * i / ((n - 1 : ℕ) : ℚ) ≤ (b - a) * j / ((n - 1 : ℕ) : ℚ) := by
      gcongr
    linarith

/-- C4 amended.  `DepthEstimator._placeholder_depth` computes depth
deterministically (it is a pure function of the image — two calls on the same
image are definitionally equal) as `depth = 1 − grayscale` blended
`0.7/0.3` with a top-to-bottom linear gradient and then normalized, but the
gradient runs from `0.3` at the TOP row to `1.0` at the BOTTOM row: the far
edge (maximal gradient depth) is at the bottom, not the top. -/
theorem placeholder_depth_amended (img : Img) (h2 : 2 ≤ img.height) :
    placeholderDepth img =
      normalizeDepth ((List.range img.height).map (fun i =>
        (img.pixels.getD i []).map (fun px =>
          (1 - (grayByte px : ℚ) / 255) * (7/10) +
            linspaceQ (3/10) 1 img.height i * (3/10)))) ∧
    placeholderDepth img = placeholderDepth img ∧
    linspaceQ (3/10) 1 img.height 0 = 3/10 ∧
    linspaceQ (3/10) 1 img.height (img.height - 1) = 1 ∧
    (∀ i j, i ≤ j →
      linspaceQ (3/10) 1 img.height i ≤ linspaceQ (3/10) 1 img.height j) := by
  refine ⟨rfl, rfl, ?_, ?_, fun i j hij => linspaceQ_mono (by norm_num) _ hij⟩
  · unfold linspaceQ
    rw [if_neg (by omega)]
    simp
  · unfold linspaceQ
    rw [if_neg (by omega)]
    have hpos : (0 : ℚ) < ((img.height - 1 : ℕ) : ℚ) := by
      have : 0 < img.height - 1 := by omega
      exact_mod_cast this
    rw [mul_div_assoc, div_self (ne_of_gt hpos), mul_one]
    norm_num

/-- C4 amended witness: the concrete 3×2 image. -/
theorem placeholder_depth_amended_witness :
    2 ≤ img32.height ∧
    (placeholderDepth img32 =
      normalizeDepth ((List.range img32.height).map (fun i =>
        (img32.pixels.getD i []).map (fun px =>
          (1 - (grayByte px : ℚ) / 255) * (7/10) +
            linspaceQ (3/10) 1 img32.height i * (3/10)))) ∧
     placeholderDepth img32 = placeholderDepth img32 ∧
     linspaceQ (3/10) 1 img32.height 0 = 3/10 ∧
     linspaceQ (3/10) 1 img32.height (img32.height - 1) = 1 ∧
     (∀ i j, i ≤ j →
       linspaceQ (3/10) 1 img32.height i ≤ linspaceQ (3/10) 1 img32.height j)) :=
  ⟨by decide, placeholder_depth_amended img32 (by decide)⟩

theorem mem_gridFaces {H W : ℕ} {t : Tri} (ht : t ∈ gridFaces H W) :
    ∃ i j, i < H - 1 ∧ j < W - 1 ∧
      (t = (i * W + j, i * W + j + 1, i * W + j + W) ∨
       t = (i * W + j + 1, i * W + j + W + 1, i * W + j + W)) := by
  unfold gridFaces at ht
  rcases List.mem_flatMap.mp ht with ⟨i, hi, h2⟩
  rcases List.mem_flatMap.mp h2 with ⟨j, hj, h3⟩
  refine ⟨i, j, List.mem_range.mp hi, List.mem_range.mp hj, ?_⟩
  simpa using h3

theorem gridFaces_idx_lt {H W : ℕ} {t : Tri} (ht : t ∈ gridFaces H W) :
    t.1 < H * W ∧ t.2.1 < H * W ∧ t.2.2 < H * W := by
  rcases mem_gridFaces ht with ⟨i, j, hi, hj, hcase⟩
  have hH : 1 ≤ H := by omega
  have hW : 1 ≤ W := by omega
  have h1 : (i + 1) * W ≤ (H - 1) * W :=
    Nat.mul_le_mul_right W (by omega)
  have h2 : (H - 1) * W + W = H * W := by
    cases H with
    | zero => omega
    | succ H0 => simp [Nat.succ_sub_one, Nat.succ_mul]
  have h3 : (i + 1) * W = i * W + W := Nat.succ_mul i W
  have key : i * W + W + j + 1 < H * W := by omega
  rcases hcase with rfl | rfl <;>
    · refine ⟨?_, ?_, ?_⟩ <;> (dsimp only; omega)

/-- C7 counterexample.  The claim asserts `face_count > 0` on every
successful `generate` result, "including degenerate sizes such as a 1×1
depth map".  On a 1×1 image and 1×1 depth map, `generate` (in the
no-3D-library environment) succeeds but returns the placeholder mesh with
one vertex and an EMPTY face array — `face_count = 0`. -/
theorem mesh_invariant_cx :
    (generate (bareEnv (mkImg 1 1 (0, 0, 0))) (mkImg 1 1 (0, 0, 0))
        [[(1 : ℚ)]] "medium").map MeshData.faceCount = some 0 ∧
    (generate (bareEnv (mkImg 1 1 (0, 0, 0))) (mkImg 1 1 (0, 0, 0))
        [[(1 : ℚ)]] "medium").map MeshData.vertexCount = some 1 ∧
    ¬ (0 < (0 : ℕ)) :=
  ⟨rfl, rfl, by omega⟩

/-- C7 amended.  For the mesh construction the repository itself performs
(`_create_placeholder_mesh`, the rung every library failure falls back to):
`vertex_count > 0` whenever the point cloud is nonempty, every face-index
triple consists of valid vertex indices (each `< vertex_count`), and
`face_count > 0` holds whenever the derived grid has at least 2 rows and 2
columns — but NOT for degenerate sizes: a 1×1 depth map yields
`face_count = 0` (see the counterexample). -/
theorem create_placeholder_mesh_invariant (points colors : List P3)
    (hne : 0 < points.length) :
    0 < (createPlaceholderMesh points colors).vertexCount ∧
    (∀ t ∈ (createPlaceholderMesh points colors).faces,
       t.1 < (createPlaceholderMesh points colors).vertexCount ∧
       t.2.1 < (createPlaceholderMesh points colors).vertexCount ∧
       t.2.2 < (createPlaceholderMesh points colors).vertexCount) ∧
    ((2 ≤ Nat.sqrt points.length ∧
      2 ≤ points.length / Nat.sqrt points.length) →
      0 < (createPlaceholderMesh points colors).faceCount) := by
  refine ⟨hne, ?_, ?_⟩
  · intro t ht
    have hfaces : (createPlaceholderMesh points colors).faces =
        gridFaces (Nat.sqrt points.length)
          (points.length / Nat.sqrt points.length) := rfl
    rw [hfaces] at ht
    have hb := gridFaces_idx_lt ht
    have hle : Nat.sqrt points.length *
        (points.length / Nat.sqrt points.length) ≤ points.length := by
      rw [Nat.mul_comm]
      exact Nat.div_mul_le_self points.length (Nat.sqrt points.length)
    have hvc : (createPlaceholderMesh points colors).vertexCount =
        points.length := rfl
    rw [hvc]
    exact ⟨by omega, by omega, by omega⟩
  · intro ⟨hH, hW⟩
    have hfc : (createPlaceholderMesh points colors).faceCount =
        (Nat.sqrt points.length - 1) *
          ((points.length / Nat.sqrt points.length - 1) * 2) := by
      show (gridFaces _ _).length = _
      rw [gridFaces_length]
    rw [hfc]
    have : 1 ≤ Nat.sqrt points.length - 1 := by omega
    have : 1 ≤ points.length / Nat.sqrt points.length - 1 := by omega
    positivity

/-- C7 amended witness: a 2×2 point cloud (4 points) — positive vertex and
face counts and valid indices. -/
theorem create_placeholder_mesh_invariant_witness :
    0 < (pcPoints [[0, 0], [0, (1 : ℚ)]] (1/2)).length ∧
    (0 < (createPlaceholderMesh (pcPoints [[0, 0], [0, (1 : ℚ)]] (1/2))
        []).vertexCount ∧
     (∀ t ∈ (createPlaceholderMesh (pcPoints [[0, 0], [0, (1 : ℚ)]] (1/2))
          []).faces,
        t.1 < (createPlaceholderMesh (pcPoints [[0, 0], [0, (1 : ℚ)]] (1/2))
          []).vertexCount ∧
        t.2.1 < (createPlaceholderMesh (pcPoints [[0, 0], [0, (1 : ℚ)]] (1/2))
          []).vertexCount ∧
        t.2.2 < (createPlaceholderMesh (pcPoints [[0, 0], [0, (1 : ℚ)]] (1/2))
          []).vertexCount) ∧
     ((2 ≤ Nat.sqrt (pcPoints [[0, 0], [0, (1 : ℚ)]] (1/2)).length ∧
       2 ≤ (pcPoints [[0, 0], [0, (1 : ℚ)]] (1/2)).length /
         Nat.sqrt (pcPoints [[0, 0], [0, (1 : ℚ)]] (1/2)).length) →
       0 < (createPlaceholderMesh (pcPoints [[0, 0], [0, (1 : ℚ)]] (1/2))
         []).faceCount)) :=
  ⟨by decide,
   create_placeholder_mesh_invariant (pcPoints [[0, 0], [0, (1 : ℚ)]] (1/2))
     [] (by decide)⟩

/-- C5 counterexample.  The claim says a failing rung degrades to the NEXT
rung (open3d → trimesh → placeholder).  In `_create_mesh_open3d` the
exception handler calls `_create_placeholder_mesh` directly (mesh_generator.py,
line 191): with open3d present-but-failing and trimesh present-and-working,
`generate` returns the rung-3 placeholder mesh, skipping the trimesh rung. -/
theorem ladder_next_rung_cx :
    (generate (ladderEnv (mkImg 2 2 (0, 0, 0))) (mkImg 2 2 (0, 0, 0))
        [[0, 0], [0, (1 : ℚ)]] "medium").map MeshData.library =
      some "placeholder" ∧
    some "placeholder" ≠ some "trimesh" :=
  ⟨rfl, by decide⟩

/-- C5 amended.  Each library rung is wrapped so that its failure degrades
DIRECTLY to the placeholder rung (rung 3), not to the next library rung: if
the open3d rung is available and raises, `generate` still returns a non-null
mesh — the placeholder grid mesh, with one vertex per point of the cloud —
never an empty result. -/
theorem ladder_degradation_amended (env : Env) (img : Img) (g : Grid)
    (q m : String) (hav : env.open3dAvailable = true)
    (hfail : env.open3dRun (pcPoints g (meshSettings q).1) = .error m) :
    generate env img g q =
      some (createPlaceholderMesh (pcPoints g (meshSettings q).1)
        (pcColors (env.resizeF img g.width g.height))) ∧
    (generate env img g q).map MeshData.library = some "placeholder" ∧
    (generate env img g q).map MeshData.vertexCount =
      some (pcPoints g (meshSettings q).1).length := by
  unfold generate
  simp [hav, hfail]
  exact ⟨rfl, rfl⟩

/-- C5 amended witness: the concrete failing-open3d environment on a 2×2
depth map — the result is the placeholder mesh with 4 vertices. -/
theorem ladder_degradation_amended_witness :
    (ladderEnv (mkImg 2 2 (0, 0, 0))).open3dAvailable = true ∧
    (ladderEnv (mkImg 2 2 (0, 0, 0))).open3dRun
        (pcPoints [[0, 0], [0, (1 : ℚ)]] (meshSettings "medium").1) =
      .error "Poisson reconstruction failed" ∧
    (generate (ladderEnv (mkImg 2 2 (0, 0, 0))) (mkImg 2 2 (0, 0, 0))
        [[0, 0], [0, (1 : ℚ)]] "medium" =
      some (createPlaceholderMesh
        (pcPoints [[0, 0], [0, (1 : ℚ)]] (meshSettings "medium").1)
        (pcColors ((ladderEnv (mkImg 2 2 (0, 0, 0))).resizeF
          (mkImg 2 2 (0, 0, 0)) (Grid.width [[0, 0], [0, (1 : ℚ)]])
          (Grid.height [[0, 0], [0, (1 : ℚ)]])))) ∧
     (generate (ladderEnv (mkImg 2 2 (0, 0, 0))) (mkImg 2 2 (0, 0, 0))
        [[0, 0], [0, (1 : ℚ)]] "medium").map MeshData.library =
       some "placeholder" ∧
     (generate (ladderEnv (mkImg 2 2 (0, 0, 0))) (mkImg 2 2 (0, 0, 0))
        [[0, 0], [0, (1 : ℚ)]] "medium").map MeshData.vertexCount =
       some (pcPoints [[0, 0], [0, (1 : ℚ)]]
         (meshSettings "medium").1).length) :=
  ⟨rfl, rfl,
   ladder_degradation_amended (ladderEnv (mkImg 2 2 (0, 0, 0)))
     (mkImg 2 2 (0, 0, 0)) [[0, 0], [0, (1 : ℚ)]] "medium"
     "Poisson reconstruction failed" rfl rfl⟩

theorem isPrefixOf_append_self (pat t : List Char) :
    pat.isPrefixOf (pat ++ t) = true := by
  induction pat with
  | nil => simp [List.isPrefixOf]
  | cons c cs ih => simp [List.isPrefixOf, ih]

theorem hasSub_here {pat l : List Char} (h : pat.isPrefixOf l = true) :
    hasSub pat l = true := by
  cases l with
  | nil => exact h
  | cons c rest => simp [hasSub, h]

theorem hasSub_append_left (pre : List Char) {pat l : List Char}
    (h : hasSub pat l = true) : hasSub pat (pre ++ l) = true := by
  induction pre with
  | nil => exact h
  | cons c cs ih => simp [hasSub, ih]

/-- C8.  When `input_path` does not exist, `convert` fails fast before the
reconstruction pipeline (converter.py, lines 124-129): `success=false`, the
error message mentions "not found", and no output file is written. -/
theorem input_not_found (env : Env) (ip op fmt q : String)
    (h : env.fileExists ip = false) :
    (convert env ip op fmt q).success = false ∧
    (convert env ip op fmt q).error = some ("Input file not found: " ++ ip) ∧
    hasSub "not found".data ("Input file not found: " ++ ip).data = true ∧
    (convert env ip op fmt q).written = [] := by
  have hc : convert env ip op fmt q =
      { success := false, error := some ("Input file not found: " ++ ip) } := by
    unfold convert
    rw [if_pos (by simp [h])]
  refine ⟨by rw [hc], by rw [hc], ?_, by rw [hc]⟩
  have hdata : ("Input file not found: " ++ ip).data =
      "Input file ".data ++ ("not found".data ++ (": ".data ++ ip.data)) := by
    rw [String.data_append]
    have : "Input file not found: ".data =
        "Input file ".data ++ ("not found".data ++ ": ".data) := by decide
    rw [this]
    simp
  rw [hdata]
  exact hasSub_append_left _ (hasSub_here (by
    rw [← List.append_assoc]
    exact isPrefixOf_append_self _ _))

/-- C8 witness: a concrete environment on which no path exists. -/
theorem input_not_found_witness :
    noFileEnv.fileExists "in.png" = false ∧
    ((convert noFileEnv "in.png" "out" "obj" "low").success = false ∧
     (convert noFileEnv "in.png" "out" "obj" "low").error =
       some ("Input file not found: " ++ "in.png") ∧
     hasSub "not found".data ("Input file not found: " ++ "in.png").data = true ∧
     (convert noFileEnv "in.png" "out" "obj" "low").written = []) :=
  ⟨rfl, input_not_found noFileEnv "in.png" "out" "obj" "low" rfl⟩

theorem data_take2_of_append (s : String) (l : List Char)
    (h : 2 ≤ s.data.length) : (s.data ++ l).take 2 = s.data.take 2 :=
  List.take_append_of_le_length h

theorem isVxLine_vxLine (p : P3) : isVxLine (vxLine p) = true := by
  unfold isVxLine vxLine
  rw [String.data_append, data_take2_of_append _ _ (by decide)]
  decide

theorem isFaceLine_vxLine (p : P3) : isFaceLine (vxLine p) = false := by
  unfold isFaceLine vxLine
  rw [String.data_append, data_take2_of_append _ _ (by decide)]
  decide

theorem isFaceLine_faceLine (t : Tri) : isFaceLine (faceLine t) = true := by
  unfold isFaceLine faceLine
  rw [String.data_append, data_take2_of_append _ _ (by decide)]
  decide

theorem isVxLine_faceLine (t : Tri) : isVxLine (faceLine t) = false := by
  unfold isVxLine faceLine
  rw [String.data_append, data_take2_of_append _ _ (by decide)]
  decide

theorem isVxLine_vheader (t : String) : isVxLine ("# Vertices: " ++ t) = false := by
  unfold isVxLine
  rw [String.data_append, data_take2_of_append _ _ (by decide)]
  decide

theorem isFaceLine_vheader (t : String) :
    isFaceLine ("# Vertices: " ++ t) = false := by
  unfold isFaceLine
  rw [String.data_append, data_take2_of_append _ _ (by decide)]
  decide

theorem isVxLine_fheader (t : String) : isVxLine ("# Faces: " ++ t) = false := by
  unfold isVxLine
  rw [String.data_append, data_take2_of_append _ _ (by decide)]
  decide

theorem isFaceLine_fheader (t : String) :
    isFaceLine ("# Faces: " ++ t) = false := by
  unfold isFaceLine
  rw [String.data_append, data_take2_of_append _ _ (by decide)]
  decide

theorem countP_map_true {α β : Type} (f : α → β) (p : β → Bool) (l : List α)
    (h : ∀ a, p (f a) = true) : (l.map f).countP p = l.length := by
  induction l with
  | nil => rfl
  | cons a t ih => simp [List.countP_cons, h, ih]

theorem countP_map_false {α β : Type} (f : α → β) (p : β → Bool) (l : List α)
    (h : ∀ a, p (f a) = false) : (l.map f).countP p = 0 := by
  induction l with
  | nil => rfl
  | cons a t ih => simp [List.countP_cons, h, ih]

/-- C9.  `_export_placeholder` writes a hand-written OBJ — a comment header
with the counts, one `v x y z` line per vertex (6-decimal formatting), one
`f i+1 j+1 k+1` line per face (1-based indices) — and re-parsing those lines
recovers exactly `vertex_count` vertex lines and `face_count` face lines
(round-trip law), for every placeholder mesh. -/
theorem obj_roundtrip (points colors : List P3) :
    (objLines (createPlaceholderMesh points colors)).countP isVxLine =
      (createPlaceholderMesh points colors).vertexCount ∧
    (objLines (createPlaceholderMesh points colors)).countP isFaceLine =
      (createPlaceholderMesh points colors).faceCount := by
  unfold objLines createPlaceholderMesh
  constructor
  · simp only [List.countP_append, List.countP_cons, List.countP_nil,
      MeshData.faces, isVxLine_vheader, isVxLine_fheader,
      countP_map_true vxLine isVxLine _ isVxLine_vxLine,
      countP_map_false faceLine isVxLine _ isVxLine_faceLine]
    norm_num [isVxLine, MeshData.vertexCount]
    exact ⟨by decide, by decide⟩
  · simp only [List.countP_append, List.countP_cons, List.countP_nil,
      MeshData.faces, isFaceLine_vheader, isFaceLine_fheader,
      countP_map_false vxLine isFaceLine _ isFaceLine_vxLine,
      countP_map_true faceLine isFaceLine _ isFaceLine_faceLine]
    norm_num [isFaceLine, MeshData.faceCount]
    exact ⟨by decide, by decide⟩

/-- C10.  For every quality string outside `{low, medium, high}` the pipeline
silently uses the medium settings — marching-cubes resolution 256, image
resize bound 512, mesh parameters `depth_scale = 0.5`, `simplify = 0.5`
(the three `.get(quality, <medium default>)` sites) — and behaves exactly as
with `"medium"`: same loaded image, same generated mesh, and the same
success flag and error of the whole conversion (the unknown value is not
rejected or reported as an error). -/
theorem unknown_quality_medium (q : String) (h1 : q ≠ "low") (h2 : q ≠ "medium")
    (h3 : q ≠ "high") (env : Env) (ip op fmt : String) :
    mcResolution q = 256 ∧ resizeBound q = 512 ∧ meshSettings q = (1/2, 1/2) ∧
    loadImage env ip q = loadImage env ip "medium" ∧
    (∀ img d, generate env img d q = generate env img d "medium") ∧
    (convert env ip op fmt q).success = (convert env ip op fmt "medium").success ∧
    (convert env ip op fmt q).error = (convert env ip op fmt "medium").error := by
  have e1 : resizeBound q = resizeBound "medium" := by
    simp [resizeBound, h1, h2, h3]
  have e2 : mcResolution q = mcResolution "medium" := by
    simp [mcResolution, h1, h2, h3]
  have e3 : meshSettings q = meshSettings "medium" := by
    simp [meshSettings, h1, h2, h3]
  refine ⟨by simp [mcResolution, h1, h2, h3],
          by simp [resizeBound, h1, h2, h3],
          by simp [meshSettings, h1, h2, h3],
          by unfold loadImage; rw [e1],
          fun img d => by unfold generate; rw [e3], ?_, ?_⟩ <;>
  · unfold convert loadImage generate
    simp only [e1, e2, e3]
    repeat' split
    all_goals rfl

/-- C10 witness: the empty quality string on the concrete bare environment. -/
theorem unknown_quality_medium_witness :
    "" ≠ "low" ∧ "" ≠ "medium" ∧ "" ≠ "high" ∧
    (mcResolution "" = 256 ∧ resizeBound "" = 512 ∧
     meshSettings "" = (1/2, 1/2) ∧
     loadImage (bareEnv img32) "in.png" "" =
       loadImage (bareEnv img32) "in.png" "medium" ∧
     (∀ img d, generate (bareEnv img32) img d "" =
       generate (bareEnv img32) img d "medium") ∧
     (convert (bareEnv img32) "in.png" "out" "obj" "").success =
       (convert (bareEnv img32) "in.png" "out" "obj" "medium").success ∧
     (convert (bareEnv img32) "in.png" "out" "obj" "").error =
       (convert (bareEnv img32) "in.png" "out" "obj" "medium").error) :=
  ⟨by decide, by decide, by decide,
   unknown_quality_medium "" (by decide) (by decide) (by decide)
     (bareEnv img32) "in.png" "out" "obj"⟩

/-- C1.  `TwoDToThreeDConverter.convert` is total: the embedding is a total
function (every Python code path is covered by the enclosing `try`, whose
handler returns a result dictionary), and for every environment and every
input, the result either has `success=true` (and no error key) or has
`success=false` with a nonempty, human-readable error string.  `EnvMsgsOk`
states that the only externally supplied messages `convert` ever returns
verbatim (TripoSR inference/export exception text) are themselves nonempty. -/
theorem convert_total (env : Env) (ip op fmt q : String) (hmsg : EnvMsgsOk env) :
    ((convert env ip op fmt q).success = true ∧
     (convert env ip op fmt q).error = none) ∨
    ((convert env ip op fmt q).success = false ∧
     (convert env ip op fmt q).error ≠ none ∧
     (convert env ip op fmt q).error ≠ some "") := by
  obtain ⟨hm1, hm2⟩ := hmsg
  have hnf : ∀ s : String, ("Input file not found: " ++ s) ≠ "" := by
    intro s hs
    have := congrArg (fun t => t.data.length) hs
    simp [String.data_append] at this
  unfold convert triposrConvert loadImage generate
  repeat' split
  all_goals try dsimp only
  all_goals repeat' split
  all_goals try dsimp only
  all_goals first
    | exact Or.inl ⟨rfl, rfl⟩
    | exact Or.inr ⟨rfl, by simp, fun h => absurd (Option.some.inj h) (by decide)⟩
    | exact Or.inr ⟨rfl, by simp, fun h => hnf ip (Option.some.inj h)⟩
    | exact Or.inr ⟨rfl, by simp,
        fun h => hm1 _ _ _ (by assumption) (Option.some.inj h)⟩
    | exact Or.inr ⟨rfl, by simp,
        fun h => hm2 _ (by assumption) (Option.some.inj h)⟩

theorem bareEnv_msgsOk (im : Img) : EnvMsgsOk (bareEnv im) := by
  constructor
  · intro img r m h
    injection h with h'
    subst h'
    decide
  · intro m h
    exact Except.noConfusion h

/-- C1 witness: a concrete bare environment and input — the run succeeds
with no error key. -/
theorem convert_total_witness :
    EnvMsgsOk (bareEnv img32) ∧
    (((convert (bareEnv img32) "in.png" "out" "obj" "low").success = true ∧
      (convert (bareEnv img32) "in.png" "out" "obj" "low").error = none) ∨
     ((convert (bareEnv img32) "in.png" "out" "obj" "low").success = false ∧
      (convert (bareEnv img32) "in.png" "out" "obj" "low").error ≠ none ∧
      (convert (bareEnv img32) "in.png" "out" "obj" "low").error ≠ some "")) :=
  ⟨bareEnv_msgsOk img32,
   convert_total (bareEnv img32) "in.png" "out" "obj" "low"
     (bareEnv_msgsOk img32)⟩

theorem solid256_height : solid256.height = 256 :=
  mkImg_height 256 256 (128, 64, 32)

theorem solid256_width : solid256.width = 256 :=
  mkImg_width 256 256 (128, 64, 32) (by norm_num)

theorem c2_points_length :
    (pcPoints (placeholderDepth solid256) (3/10)).length = 65536 := by
  rw [pcPoints_length, placeholderDepth_height,
      placeholderDepth_width _ (by rw [solid256_height]; norm_num),
      solid256_height, solid256_width]

theorem sqrt_65536 : Nat.sqrt 65536 = 256 := by
  rw [show (65536 : ℕ) = 256 ^ 2 by norm_num]
  exact Nat.sqrt_eq' 256

theorem c2_vertexCount (C : List P3) :
    (createPlaceholderMesh (pcPoints (placeholderDepth solid256) (3/10))
      C).vertexCount = 65536 := by
  show (pcPoints (placeholderDepth solid256) (3/10)).length = 65536
  exact c2_points_length

theorem c2_faceCount (C : List P3) :
    (createPlaceholderMesh (pcPoints (placeholderDepth solid256) (3/10))
      C).faceCount = 130050 := by
  show (gridFaces
      (Nat.sqrt (pcPoints (placeholderDepth solid256) (3/10)).length)
      ((pcPoints (placeholderDepth solid256) (3/10)).length /
        Nat.sqrt (pcPoints (placeholderDepth solid256) (3/10)).length)).length
    = 130050
  rw [c2_points_length, sqrt_65536, gridFaces_length]

set_option maxHeartbeats 1000000 in
theorem c2_eval :
    convert (bareEnv solid256) "in.png" "out" "obj" "low" =
      { success := true, error := none, output_path := some "out.obj",
        format := some "obj", method := some "MiDaS",
        metadata := some { input_resolution := some (256, 256),
                           quality := some "low",
                           vertex_count := some 65536,
                           face_count := some 130050,
                           mc_resolution := none, has_texture := none },
        written := ["out.obj"] } := by
  unfold convert loadImage estimate generate meshExport bareEnv resizeBound
    meshSettings
  norm_num
  unfold createPlaceholderMesh
  simp only [MeshData.vertexCount, MeshData.faceCount]
  rw [if_neg (by decide : ¬ (true = false))]
  rw [c2_points_length, sqrt_65536, gridFaces_length]
  rw [show ("out" ++ "." ++ "obj" : String) = "out.obj" by decide]
  rw [show ("." ++ "obj" : String) = ".obj" by decide]
  rw [show pyReplace "out.obj" ".obj" ".obj" = "out.obj" by decide]
  rw [show solid256.size = ((256 : ℕ), (256 : ℕ)) by
        unfold Img.size; rw [solid256_height, solid256_width]]

/-- C2 counterexample.  In the 256×256 solid-color scenario the conversion
succeeds, but the method tag is the TOP-LEVEL result key `method = "MiDaS"`
(converter.py, line 223); it is not the string "placeholder-or-depth", and
the `metadata` dictionary carries no method key at all (its keys are
`input_resolution`, `quality`, `vertex_count`, `face_count`), refuting
`metadata.method = "placeholder-or-depth"` as stated. -/
theorem solid_scenario_cx :
    (convert (bareEnv solid256) "in.png" "out" "obj" "low").success = true ∧
    (convert (bareEnv solid256) "in.png" "out" "obj" "low").method =
      some "MiDaS" ∧
    (convert (bareEnv solid256) "in.png" "out" "obj" "low").method ≠
      some "placeholder-or-depth" :=
  ⟨by rw [c2_eval], by rw [c2_eval], by rw [c2_eval]; decide⟩

/-- C2 amended.  A 256×256 solid-color input with `quality=low`,
`output_format=obj`, no neural backend (TripoSR init fails, torch absent)
and no 3D geometry library: `convert` returns `success=true` with the
top-level method tag `"MiDaS"` (the depth-fallback pipeline),
`metadata.vertex_count = 65536 = 256·256` and
`metadata.face_count = 130050 = 2·255·255` — the grid triangulation
producing two triangles per 2×2 pixel quad — and writes `out.obj`. -/
theorem solid_scenario_amended :
    convert (bareEnv solid256) "in.png" "out" "obj" "low" =
      { success := true, error := none, output_path := some "out.obj",
        format := some "obj", method := some "MiDaS",
        metadata := some { input_resolution := some (256, 256),
                           quality := some "low",
                           vertex_count := some 65536,
                           face_count := some 130050,
                           mc_resolution := none, has_texture := none },
        written := ["out.obj"] } :=
  c2_eval

end Animate



















